import Mathlib

/-!
Verification of the SenseAI front-end's client-side logic: the PCM audio
decoder, the playback controller of the AudioPlayer component, and the
generation pipeline of App.tsx together with the geminiService call wrappers.

The embedding works at the level the code works at: `decodeAudio` takes the
byte sequence produced by the base64 decode (`atob` plus the charCode loop),
the playback controller is a record of the component's refs and state, and
the pipeline is a state machine over the App component's state hooks with the
remote responses supplied as inputs.
-/

namespace SenseAI

/-! ## PCM decoder (AudioPlayer.decodeAudio)

The component builds a `Uint8Array` from the decoded base64 string, then
constructs an `Int16Array` view over its buffer.  Constructing a 16-bit view
over a buffer of odd byte length throws a `RangeError`; the surrounding
`try`/`catch` converts any such throw into the error ("unavailable") state,
producing no buffer.  On even byte length, each 16-bit little-endian signed
sample is normalized by dividing by 32768. -/

/-- The signed 16-bit value an `Int16Array` element holds for the
little-endian byte pair `(lo, hi)`. -/
def int16OfBytes (lo hi : Nat) : Int :=
  let u := (lo + 256 * hi) % 65536
  if u < 32768 then (u : Int) else (u : Int) - 65536

/-- Group a byte list into consecutive little-endian pairs, as the
`Int16Array` view does; a trailing lone byte cannot occur on the success
path because the view construction throws first. -/
def bytePairs : List Nat → List (Nat × Nat)
  | lo :: hi :: rest => (lo, hi) :: bytePairs rest
  | _ => []

/-- `decodeAudio` at the byte level: `none` models the caught throw
(`hasError` set, no buffer produced); `some samples` models a populated
`AudioBuffer` channel.  Two throw sites are reached in order: the
`Int16Array` view construction throws on odd byte length, and then
`createBuffer(1, frameCount, 24000)` throws `NotSupportedError` when
`frameCount` (the `Int16Array` length, i.e. byte length / 2) is zero. -/
def decodeAudio (bytes : List Nat) : Option (List ℚ) :=
  if bytes.length % 2 = 0 then
    if bytes.length / 2 = 0 then none
    else some ((bytePairs bytes).map (fun p => (int16OfBytes p.1 p.2 : ℚ) / 32768))
  else none

theorem bytePairs_length (l : List Nat) : (bytePairs l).length = l.length / 2 := by
  match l with
  | [] => simp [bytePairs]
  | [a] => simp [bytePairs]
  | a :: b :: rest =>
    have ih := bytePairs_length rest
    simp only [bytePairs, List.length_cons, ih]
    omega

theorem bytePairs_getD (l : List Nat) (k : Nat) (hk : k < (bytePairs l).length) :
    (bytePairs l).getD k (0, 0) = (l.getD (2 * k) 0, l.getD (2 * k + 1) 0) := by
  match l, k with
  | [], k => simp [bytePairs] at hk
  | [a], k => simp [bytePairs] at hk
  | a :: b :: rest, 0 => rfl
  | a :: b :: rest, k + 1 =>
    have hk2 : k < (bytePairs rest).length := by
      simpa [bytePairs] using hk
    have ih := bytePairs_getD rest k hk2
    have e1 : (bytePairs (a :: b :: rest)).getD (k + 1) (0, 0) =
        (bytePairs rest).getD k (0, 0) := by
      simp only [bytePairs, List.getD_cons_succ]
    have h1 : 2 * (k + 1) = 2 * k + 1 + 1 := by omega
    have h2 : 2 * (k + 1) + 1 = 2 * k + 1 + 1 + 1 := by omega
    have e2 : (a :: b :: rest).getD (2 * (k + 1)) 0 = rest.getD (2 * k) 0 := by
      rw [h1, List.getD_cons_succ, List.getD_cons_succ]
    have e3 : (a :: b :: rest).getD (2 * (k + 1) + 1) 0 = rest.getD (2 * k + 1) 0 := by
      rw [h2, List.getD_cons_succ, List.getD_cons_succ]
    rw [e1, e2, e3, ih]

theorem getD_map_sample (l : List (Nat × Nat)) (k : Nat) (hk : k < l.length) :
    (l.map (fun p => (int16OfBytes p.1 p.2 : ℚ) / 32768)).getD k 0 =
      (int16OfBytes (l.getD k (0, 0)).1 (l.getD k (0, 0)).2 : ℚ) / 32768 := by
  match l, k with
  | [], k => simp at hk
  | p :: rest, 0 => rfl
  | p :: rest, k + 1 =>
    have hk2 : k < rest.length := by simpa using hk
    simpa [List.getD_cons_succ] using getD_map_sample rest k hk2

/-! ## Playback controller (AudioPlayer play/pause/stop)

The component state: `isPlaying` (React state), `hasBuffer` models
`audioBufferRef.current` and `audioContextRef.current` being non-null,
`hasSource` models `sourceRef.current` being non-null, `startTime` and
`pauseTime` are `startTimeRef` and `pauseTimeRef`, and `srcOffset` records
the offset passed to `source.start(0, offset)` by the last `play`.  The
audio-context clock is passed in as `now`. -/

structure PlayerState where
  isPlaying : Bool
  hasBuffer : Bool
  hasSource : Bool
  startTime : ℚ
  pauseTime : ℚ
  srcOffset : ℚ
deriving DecidableEq

/-- `play()`: no-op without a decoded buffer; otherwise creates a source,
starts it at `pauseTime`, records `startTime = now - offset`, sets playing.
It does not modify `pauseTime`. -/
def play (now : ℚ) (s : PlayerState) : PlayerState :=
  if s.hasBuffer then
    { s with hasSource := true, srcOffset := s.pauseTime,
             startTime := now - s.pauseTime, isPlaying := true }
  else s

/-- `pause()`: guarded by `sourceRef.current && isPlaying`; stores
`pauseTime = now - startTime` and clears `isPlaying`.  Otherwise a no-op. -/
def pause (now : ℚ) (s : PlayerState) : PlayerState :=
  if s.hasSource && s.isPlaying then
    { s with pauseTime := now - s.startTime, isPlaying := false }
  else s

/-- `stop()`: the `source.stop()` call is wrapped in `try`/`catch` so the
whole function is total; it unconditionally resets `pauseTime` to 0 and
clears `isPlaying`. -/
def stop (s : PlayerState) : PlayerState :=
  { s with pauseTime := 0, isPlaying := false }

/-- The `onended` completion callback the controller installs on each source:
clears `isPlaying` and resets `pauseTime` to 0. -/
def onEnded (s : PlayerState) : PlayerState :=
  { s with isPlaying := false, pauseTime := 0 }

/-! ## Claims about decoder and playback controller -/

/-- Claim C1: starting playback at clock `t0` from offset 0, pausing at clock
`t0 + t` stores exactly the elapsed offset `t` (computed as current time
minus the recorded start reference), and a subsequent `play` starts the new
source at offset `t`, which is nonzero when `t > 0` — playback never restarts
from 0 after a pause. -/
theorem c1_pause_then_resume (s : PlayerState) (t0 t t1 : ℚ)
    (hb : s.hasBuffer = true) (h0 : s.pauseTime = 0) (ht : 0 < t) :
    (pause (t0 + t) (play t0 s)).pauseTime = (t0 + t) - (play t0 s).startTime ∧
    (pause (t0 + t) (play t0 s)).pauseTime = t ∧
    (pause (t0 + t) (play t0 s)).isPlaying = false ∧
    (play t1 (pause (t0 + t) (play t0 s))).srcOffset = t ∧
    (play t1 (pause (t0 + t) (play t0 s))).srcOffset ≠ 0 := by
  simp [play, pause, hb, h0]
  exact ne_of_gt ht

/-- Witness for C1 at a concrete state and times. -/
theorem c1_pause_then_resume_witness :
    (⟨false, true, false, 0, 0, 0⟩ : PlayerState).hasBuffer = true ∧
    (⟨false, true, false, 0, 0, 0⟩ : PlayerState).pauseTime = 0 ∧
    (0 : ℚ) < 2 ∧
    ((pause (1 + 2) (play 1 ⟨false, true, false, 0, 0, 0⟩)).pauseTime =
        (1 + 2) - (play 1 ⟨false, true, false, 0, 0, 0⟩).startTime ∧
      (pause (1 + 2) (play 1 ⟨false, true, false, 0, 0, 0⟩)).pauseTime = 2 ∧
      (pause (1 + 2) (play 1 ⟨false, true, false, 0, 0, 0⟩)).isPlaying = false ∧
      (play 5 (pause (1 + 2) (play 1 ⟨false, true, false, 0, 0, 0⟩))).srcOffset = 2 ∧
      (play 5 (pause (1 + 2) (play 1 ⟨false, true, false, 0, 0, 0⟩))).srcOffset ≠ 0) :=
  ⟨rfl, rfl, by norm_num,
    c1_pause_then_resume ⟨false, true, false, 0, 0, 0⟩ 1 2 5 rfl rfl (by norm_num)⟩

/-- Claim C2, counterexample: on an odd-length byte payload the decode does
not drop the trailing byte and keep the rest — the `Int16Array` construction
throws, the catch sets the error state, and no buffer at all is produced:
`decodeAudio [0, 0, 0]` is `none`, not a one-sample buffer. -/
theorem c2_odd_length_cex :
    decodeAudio [0, 0, 0] = none ∧
    ¬ ∃ s, decodeAudio [0, 0, 0] = some s ∧ s.length = 1 := by
  refine ⟨rfl, ?_⟩
  rintro ⟨s, hs, -⟩
  simp [decodeAudio] at hs

/-- Claim C2 as amended: decoding a payload of odd byte length does not crash
the application (the `RangeError` from the 16-bit view construction is caught
internally), but it produces no buffer at all — decode fails into the
terminal error state rather than dropping the trailing incomplete sample. -/
theorem c2_odd_length_amended (bytes : List Nat) (h : bytes.length % 2 = 1) :
    decodeAudio bytes = none := by
  have h2 : ¬ bytes.length % 2 = 0 := by omega
  simp [decodeAudio, h2]

/-- Witness for the amended C2 at a concrete odd-length payload. -/
theorem c2_odd_length_amended_witness :
    ([0, 0, 0] : List Nat).length % 2 = 1 ∧ decodeAudio [0, 0, 0] = none :=
  ⟨by decide, c2_odd_length_amended [0, 0, 0] (by decide)⟩

/-- Claim C6, counterexample: the empty payload has even decoded byte length
(0, and the empty string is valid base64), but decoding it does not produce
0 = 0 / 2 samples — `createBuffer(1, 0, 24000)` throws `NotSupportedError`
for zero frames, which the catch converts into the terminal error state with
no buffer at all. -/
theorem c6_empty_even_cex :
    decodeAudio [] = none ∧
    ¬ ∃ s, decodeAudio [] = some s ∧ s.length = ([] : List Nat).length / 2 := by
  refine ⟨rfl, ?_⟩
  rintro ⟨s, hs, -⟩
  simp [decodeAudio] at hs

/-- Claim C6 as amended: for every byte payload of even, nonzero length, the
decode succeeds, the sample count is half the byte count, and sample `k` is
the signed 16-bit little-endian integer formed by bytes `2k` and `2k+1`,
divided by 32768; the empty even-length payload instead fails into the
terminal error state, because `createBuffer` rejects a zero frame count. -/
theorem c6_even_nonzero_decode (bytes : List Nat) (h : bytes.length % 2 = 0)
    (hne : bytes.length ≠ 0) :
    ∃ s, decodeAudio bytes = some s ∧ s.length = bytes.length / 2 ∧
      ∀ k, k < s.length →
        s.getD k 0 = (int16OfBytes (bytes.getD (2 * k) 0) (bytes.getD (2 * k + 1) 0) : ℚ) / 32768 := by
  refine ⟨(bytePairs bytes).map (fun p => (int16OfBytes p.1 p.2 : ℚ) / 32768), ?_, ?_, ?_⟩
  · have hfc : ¬ bytes.length / 2 = 0 := by omega
    simp [decodeAudio, h, hfc]
  · simp [bytePairs_length]
  · intro k hk
    rw [List.length_map] at hk
    rw [getD_map_sample (bytePairs bytes) k hk, bytePairs_getD bytes k hk]

/-- Witness for the amended C6 at the two-byte payload `[0, 128]`, whose
single sample is `-32768 / 32768 = -1`. -/
theorem c6_even_nonzero_decode_witness :
    ([0, 128] : List Nat).length % 2 = 0 ∧ ([0, 128] : List Nat).length ≠ 0 ∧
    ∃ s, decodeAudio [0, 128] = some s ∧ s.length = ([0, 128] : List Nat).length / 2 ∧
      ∀ k, k < s.length →
        s.getD k 0 = (int16OfBytes (([0, 128] : List Nat).getD (2 * k) 0)
          (([0, 128] : List Nat).getD (2 * k + 1) 0) : ℚ) / 32768 :=
  ⟨by decide, by decide, c6_even_nonzero_decode [0, 128] (by decide) (by decide)⟩

/-- Claim C7: `stop` always yields `isPlaying = false` and offset 0,
regardless of prior state; it is idempotent (calling it twice is safe, the
error from stopping an already-stopped source being swallowed by the
`try`/`catch`); the natural-completion callback also resets the offset to 0,
so the next `play` starts its source at offset 0. -/
theorem c7_stop_resets (s : PlayerState) (t : ℚ) (hb : s.hasBuffer = true) :
    (stop s).isPlaying = false ∧ (stop s).pauseTime = 0 ∧
    stop (stop s) = stop s ∧
    (onEnded s).isPlaying = false ∧ (onEnded s).pauseTime = 0 ∧
    (play t (stop s)).srcOffset = 0 ∧
    (play t (onEnded s)).srcOffset = 0 := by
  refine ⟨rfl, rfl, rfl, rfl, rfl, ?_, ?_⟩ <;> simp [play, stop, onEnded, hb]

/-- Witness for C7 at a concrete mid-playback state. -/
theorem c7_stop_resets_witness :
    (⟨true, true, true, 3, 7, 2⟩ : PlayerState).hasBuffer = true ∧
    ((stop ⟨true, true, true, 3, 7, 2⟩).isPlaying = false ∧
      (stop ⟨true, true, true, 3, 7, 2⟩).pauseTime = 0 ∧
      stop (stop ⟨true, true, true, 3, 7, 2⟩) = stop ⟨true, true, true, 3, 7, 2⟩ ∧
      (onEnded ⟨true, true, true, 3, 7, 2⟩).isPlaying = false ∧
      (onEnded ⟨true, true, true, 3, 7, 2⟩).pauseTime = 0 ∧
      (play 9 (stop ⟨true, true, true, 3, 7, 2⟩)).srcOffset = 0 ∧
      (play 9 (onEnded ⟨true, true, true, 3, 7, 2⟩)).srcOffset = 0) :=
  ⟨rfl, c7_stop_resets ⟨true, true, true, 3, 7, 2⟩ 9 rfl⟩

/-! ## Generation pipeline (App.tsx handleProcess, geminiService.ts)

The App component's hooks are a record: `appState`, `content` (the result
aggregate, `null` until stage 2 sets it), `error`.  The remote explain
response is supplied as an input: `noText` models an empty `response.text`,
`nonJSON` a text on which `JSON.parse` throws, and `json e sd ip` a parsed
object whose three fields are each present or absent — the `as
ExplanationResponse` cast performs no runtime validation, so absent fields
flow through as `undefined` (here `Option.none`). -/

inductive AppState
  | IDLE | RECORDING | TRANSCRIBING | PROCESSING_TEXT
  | GENERATING_IMAGE | GENERATING_AUDIO | COMPLETED | ERROR
deriving DecidableEq

/-- The result aggregate (`GeneratedContent` in types.ts).  `text` and
`spatialDescription` are `Option` because the unvalidated parse can leave
them `undefined` at runtime despite the TypeScript type. -/
structure GeneratedContent where
  text : Option String
  spatialDescription : Option String
  imageUrl : Option String
  audioUrl : Option String
deriving DecidableEq

structure PipelineState where
  appState : AppState
  content : Option GeneratedContent
  error : Option String
deriving DecidableEq

inductive ExplainResponse
  | noText
  | nonJSON (raw : String)
  | json (explanation spatialDescription imagePrompt : Option String)

/-- The parsed explain payload as JavaScript sees it: each field present or
`undefined`. -/
structure ParsedExplanation where
  explanation : Option String
  spatialDescription : Option String
  imagePrompt : Option String

/-- `generateExplanation`: throws on empty response text and rethrows the
`JSON.parse` failure; a syntactically valid JSON object is returned as-is,
with no check that the three schema fields are present. -/
def generateExplanation : ExplainResponse → Except String ParsedExplanation
  | .noText => .error "Empty response text from Gemini."
  | .nonJSON raw => .error raw
  | .json e sd ip => .ok ⟨e, sd, ip⟩

/-- Which of the two fire-and-forget stage-3 calls `handleProcess` issued,
and with what inputs. -/
structure Launches where
  diagramLaunched : Bool
  diagramInput : Option String
  speechLaunched : Bool
  speechInput : Option String
deriving DecidableEq

def noLaunches : Launches := ⟨false, none, false, none⟩

def genericErrorMsg : String :=
  "Failed to generate content. Please try again or check your API key."

/-- The synchronous part of `handleProcess`, from entry to the end of its
`try`/`catch`, given the explain response.  If the query is empty it returns
immediately.  On an explain throw the catch sets the generic error and the
ERROR phase with the aggregate still `null`.  On a parsed payload it sets the
aggregate and COMPLETED, launches the diagram call, and then evaluates
`explanationData.explanation.slice(0, 800)` for the speech call — which
throws a `TypeError` into the same catch when `explanation` is `undefined`,
flipping the phase to ERROR while leaving the already-set aggregate in
place. -/
def handleProcess (query : String) (r : ExplainResponse) (s0 : PipelineState) :
    PipelineState × Launches :=
  if query = "" then (s0, noLaunches)
  else
    match generateExplanation r with
    | .error _ =>
      ({ appState := .ERROR, content := none, error := some genericErrorMsg }, noLaunches)
    | .ok p =>
      let c0 : GeneratedContent := ⟨p.explanation, p.spatialDescription, none, none⟩
      match p.explanation with
      | some e =>
        ({ appState := .COMPLETED, content := some c0, error := none },
          ⟨true, p.imagePrompt, true, some (e.take 800)⟩)
      | none =>
        ({ appState := .ERROR, content := some c0, error := some genericErrorMsg },
          ⟨true, p.imagePrompt, false, none⟩)

/-- The `.then` continuation of the diagram call: a truthy (non-empty) url is
merged into the aggregate by `setContent(prev => prev ? ... : null)`; a falsy
one is ignored.  Phase and error are untouched. -/
def applyDiagramResult (imageUrl : String) (st : PipelineState) : PipelineState :=
  if imageUrl = "" then st
  else { st with content := st.content.map (fun c => { c with imageUrl := some imageUrl }) }

/-- The `.then` continuation of the speech call: a non-null, non-empty
payload is merged into the aggregate; `null` or empty is ignored. -/
def applySpeechResult (audioBase64 : Option String) (st : PipelineState) : PipelineState :=
  match audioBase64 with
  | none => st
  | some v =>
    if v = "" then st
    else { st with content := st.content.map (fun c => { c with audioUrl := some v }) }

/-- Outcome of the diagram request as seen by `generateDiagram`: a rejected
await, or a response whose parts each carry `inlineData.data` or not. -/
inductive DiagramOutcome
  | reject
  | parts (ps : List (Option String))

/-- First part whose `inlineData.data` is truthy, as the for-loop finds it. -/
def firstImageData : List (Option String) → Option String
  | [] => none
  | none :: rest => firstImageData rest
  | some d :: rest => if d = "" then firstImageData rest else some d

/-- The `try` body of `generateDiagram`: the await can reject and a response
without usable image data throws. -/
def generateDiagramBody : DiagramOutcome → Except String String
  | .reject => .error "request failed"
  | .parts ps =>
    match firstImageData ps with
    | some d => .ok ("data:image/png;base64," ++ d)
    | none => .error "No image data found in response."

/-- Promise fulfilled (vs rejected). -/
def isFulfilled {α : Type} : Except String α → Bool
  | .ok _ => true
  | .error _ => false

/-- `generateDiagram` as its caller observes the promise: the catch converts
every failure of the body into a fulfilled empty string. -/
def generateDiagramSettled (o : DiagramOutcome) : Except String String :=
  match generateDiagramBody o with
  | .ok s => .ok s
  | .error _ => .ok ""

/-- The value the diagram promise resolves with. -/
def generateDiagram (o : DiagramOutcome) : String :=
  match generateDiagramSettled o with
  | .ok s => s
  | .error _ => ""

/-- Outcome of the speech request: a rejected await, or a response whose
first part's `inlineData.data` is present or not. -/
inductive SpeechOutcome
  | reject
  | data (d : Option String)

/-- The `try` body of `generateSpeech`: after the await it only inspects the
optional data, returning it when truthy and `null` otherwise. -/
def generateSpeechBody : SpeechOutcome → Except String (Option String)
  | .reject => .error "request failed"
  | .data none => .ok none
  | .data (some v) => .ok (if v = "" then none else some v)

/-- `generateSpeech` as its caller observes the promise: the catch converts
every failure of the body into a fulfilled `null`. -/
def generateSpeechSettled (o : SpeechOutcome) : Except String (Option String) :=
  match generateSpeechBody o with
  | .ok v => .ok v
  | .error _ => .ok none

/-- The value the speech promise resolves with. -/
def generateSpeech (o : SpeechOutcome) : Option String :=
  match generateSpeechSettled o with
  | .ok v => v
  | .error _ => none

inductive Modality
  | AUDIO | TEXT | IMAGE
deriving DecidableEq

/-- The request `generateSpeech` builds for its input text. -/
structure SpeechRequest where
  model : String
  text : String
  responseModalities : List Modality
  voiceName : String
deriving DecidableEq

def speechRequest (text : String) : SpeechRequest :=
  ⟨"gemini-2.5-flash-preview-tts", text, [Modality.AUDIO], "Fenrir"⟩

/-- Both url fields of the aggregate, when set, hold non-empty strings. -/
def urlFieldsNonEmpty (st : PipelineState) : Prop :=
  ∀ c, st.content = some c →
    (∀ v, c.imageUrl = some v → v ≠ "") ∧ (∀ v, c.audioUrl = some v → v ≠ "")

/-! ## Claims about the pipeline -/

/-- Claim C3, counterexample: a syntactically valid JSON explain response
missing the required `spatialDescription` field is not treated as a stage
failure — the phase still reaches COMPLETED (not ERROR) and the aggregate is
set (partial content is rendered), contradicting the claim. -/
theorem c3_missing_field_cex :
    (handleProcess "q" (ExplainResponse.json (some "E") none (some "P"))
        ⟨AppState.IDLE, none, none⟩).1.appState = AppState.COMPLETED ∧
    (handleProcess "q" (ExplainResponse.json (some "E") none (some "P"))
        ⟨AppState.IDLE, none, none⟩).1.content ≠ none := by
  refine ⟨rfl, ?_⟩
  simp [handleProcess, generateExplanation]

/-- Claim C3 as amended: only a non-JSON or empty explain response is treated
as total stage failure — the pipeline aborts with the generic error message,
the phase transitions to ERROR, the aggregate stays `null`, and no stage-3
call is launched.  (A valid JSON response missing required fields is not
validated client-side.) -/
theorem c3_total_failure_amended (q raw : String) (s0 : PipelineState) (hq : q ≠ "") :
    handleProcess q ExplainResponse.noText s0 =
      (⟨AppState.ERROR, none, some genericErrorMsg⟩, noLaunches) ∧
    handleProcess q (ExplainResponse.nonJSON raw) s0 =
      (⟨AppState.ERROR, none, some genericErrorMsg⟩, noLaunches) := by
  constructor <;> simp [handleProcess, generateExplanation, hq]

/-- Witness for the amended C3 at a concrete query and malformed response. -/
theorem c3_total_failure_amended_witness :
    ("what is MoE" : String) ≠ "" ∧
    (handleProcess "what is MoE" ExplainResponse.noText ⟨AppState.IDLE, none, none⟩ =
        (⟨AppState.ERROR, none, some genericErrorMsg⟩, noLaunches) ∧
      handleProcess "what is MoE" (ExplainResponse.nonJSON "not json")
          ⟨AppState.IDLE, none, none⟩ =
        (⟨AppState.ERROR, none, some genericErrorMsg⟩, noLaunches)) :=
  ⟨by decide,
    c3_total_failure_amended "what is MoE" "not json" ⟨AppState.IDLE, none, none⟩ (by decide)⟩

/-- Claim C4: when stage 2 succeeds with all three fields, the phase is
COMPLETED already at the end of the synchronous part, while the two stage-3
updaters each rewrite only their own field of the aggregate — phase and error
are untouched, and a read-modify-write through the functional `setContent`
update preserves every other field already present. -/
theorem c4_completed_and_disjoint_updates
    (q e sd ip u : String) (a : Option String) (s0 st : PipelineState)
    (c : GeneratedContent) (hq : q ≠ "") (hu : u ≠ "") :
    (handleProcess q (ExplainResponse.json (some e) (some sd) (some ip)) s0).1.appState =
      AppState.COMPLETED ∧
    (applyDiagramResult u st).appState = st.appState ∧
    (applyDiagramResult u st).error = st.error ∧
    (applySpeechResult a st).appState = st.appState ∧
    (applySpeechResult a st).error = st.error ∧
    (applyDiagramResult u { st with content := some c }).content =
      some { c with imageUrl := some u } ∧
    (applySpeechResult (some u) { st with content := some c }).content =
      some { c with audioUrl := some u } := by
  refine ⟨?_, ?_, ?_, ?_, ?_, ?_, ?_⟩
  · simp [handleProcess, generateExplanation, hq]
  · by_cases h : u = "" <;> simp [applyDiagramResult, h]
  · by_cases h : u = "" <;> simp [applyDiagramResult, h]
  · cases a with
    | none => rfl
    | some v => by_cases h : v = "" <;> simp [applySpeechResult, h]
  · cases a with
    | none => rfl
    | some v => by_cases h : v = "" <;> simp [applySpeechResult, h]
  · simp [applyDiagramResult, hu]
  · simp [applySpeechResult, hu]

/-- Witness for C4 at concrete inputs. -/
theorem c4_completed_and_disjoint_updates_witness :
    ("q" : String) ≠ "" ∧ ("IMG" : String) ≠ "" ∧
    ((handleProcess "q" (ExplainResponse.json (some "E") (some "S") (some "P"))
        ⟨AppState.IDLE, none, none⟩).1.appState = AppState.COMPLETED ∧
      (applyDiagramResult "IMG" ⟨AppState.COMPLETED, none, none⟩).appState =
        (⟨AppState.COMPLETED, none, none⟩ : PipelineState).appState ∧
      (applyDiagramResult "IMG" ⟨AppState.COMPLETED, none, none⟩).error =
        (⟨AppState.COMPLETED, none, none⟩ : PipelineState).error ∧
      (applySpeechResult none ⟨AppState.COMPLETED, none, none⟩).appState =
        (⟨AppState.COMPLETED, none, none⟩ : PipelineState).appState ∧
      (applySpeechResult none ⟨AppState.COMPLETED, none, none⟩).error =
        (⟨AppState.COMPLETED, none, none⟩ : PipelineState).error ∧
      (applyDiagramResult "IMG"
          { (⟨AppState.COMPLETED, none, none⟩ : PipelineState) with
            content := some ⟨some "E", some "S", none, none⟩ }).content =
        some { (⟨some "E", some "S", none, none⟩ : GeneratedContent) with
          imageUrl := some "IMG" } ∧
      (applySpeechResult (some "IMG")
          { (⟨AppState.COMPLETED, none, none⟩ : PipelineState) with
            content := some ⟨some "E", some "S", none, none⟩ }).content =
        some { (⟨some "E", some "S", none, none⟩ : GeneratedContent) with
          audioUrl := some "IMG" }) :=
  ⟨by decide, by decide,
    c4_completed_and_disjoint_updates "q" "E" "S" "P" "IMG" none
      ⟨AppState.IDLE, none, none⟩ ⟨AppState.COMPLETED, none, none⟩
      ⟨some "E", some "S", none, none⟩ (by decide) (by decide)⟩

/-- Claim C5: a failed diagram or speech stage is logged only — its settled
value (`""` resp. `null`) makes the `.then` continuation a no-op, so the
corresponding field stays unset, the phase does not move back to ERROR, and
the stage-2 content already displayed is untouched. -/
theorem c5_silent_stage3_failure (st : PipelineState) (od : DiagramOutcome)
    (os : SpeechOutcome)
    (hd : isFulfilled (generateDiagramBody od) = false)
    (hs : isFulfilled (generateSpeechBody os) = false) :
    applyDiagramResult (generateDiagram od) st = st ∧
    applySpeechResult (generateSpeech os) st = st ∧
    applyDiagramResult "" st = st ∧
    applySpeechResult none st = st := by
  refine ⟨?_, ?_, rfl, rfl⟩
  · cases h : generateDiagramBody od with
    | ok v => rw [h] at hd; simp [isFulfilled] at hd
    | error e => simp [generateDiagram, generateDiagramSettled, h, applyDiagramResult]
  · cases h : generateSpeechBody os with
    | ok v => rw [h] at hs; simp [isFulfilled] at hs
    | error e => simp [generateSpeech, generateSpeechSettled, h, applySpeechResult]

/-- Witness for C5 with both stage-3 awaits rejecting. -/
theorem c5_silent_stage3_failure_witness :
    isFulfilled (generateDiagramBody DiagramOutcome.reject) = false ∧
    isFulfilled (generateSpeechBody SpeechOutcome.reject) = false ∧
    (applyDiagramResult (generateDiagram DiagramOutcome.reject)
        ⟨AppState.COMPLETED, some ⟨some "E", some "S", none, none⟩, none⟩ =
      ⟨AppState.COMPLETED, some ⟨some "E", some "S", none, none⟩, none⟩ ∧
      applySpeechResult (generateSpeech SpeechOutcome.reject)
          ⟨AppState.COMPLETED, some ⟨some "E", some "S", none, none⟩, none⟩ =
        ⟨AppState.COMPLETED, some ⟨some "E", some "S", none, none⟩, none⟩ ∧
      applyDiagramResult ""
          ⟨AppState.COMPLETED, some ⟨some "E", some "S", none, none⟩, none⟩ =
        ⟨AppState.COMPLETED, some ⟨some "E", some "S", none, none⟩, none⟩ ∧
      applySpeechResult none
          ⟨AppState.COMPLETED, some ⟨some "E", some "S", none, none⟩, none⟩ =
        ⟨AppState.COMPLETED, some ⟨some "E", some "S", none, none⟩, none⟩) :=
  ⟨rfl, rfl,
    c5_silent_stage3_failure
      ⟨AppState.COMPLETED, some ⟨some "E", some "S", none, none⟩, none⟩
      DiagramOutcome.reject SpeechOutcome.reject rfl rfl⟩

/-- Claim C8: on a fully successful explain stage, the speech call is
launched with exactly the explanation truncated to its first 800 characters,
and `generateSpeech` builds its request with audio-only output and the fixed
voice identity Fenrir. -/
theorem c8_speech_input (q e sd ip i : String) (s0 : PipelineState) (hq : q ≠ "") :
    (handleProcess q (ExplainResponse.json (some e) (some sd) (some ip)) s0).2.speechLaunched =
      true ∧
    (handleProcess q (ExplainResponse.json (some e) (some sd) (some ip)) s0).2.speechInput =
      some (e.take 800) ∧
    (speechRequest i).text = i ∧
    (speechRequest i).responseModalities = [Modality.AUDIO] ∧
    (speechRequest i).voiceName = "Fenrir" ∧
    (speechRequest i).model = "gemini-2.5-flash-preview-tts" := by
  refine ⟨?_, ?_, rfl, rfl, rfl, rfl⟩ <;> simp [handleProcess, generateExplanation, hq]

/-- Witness for C8 at a concrete query and explanation. -/
theorem c8_speech_input_witness :
    ("q" : String) ≠ "" ∧
    ((handleProcess "q" (ExplainResponse.json (some "E") (some "S") (some "P"))
        ⟨AppState.IDLE, none, none⟩).2.speechLaunched = true ∧
      (handleProcess "q" (ExplainResponse.json (some "E") (some "S") (some "P"))
          ⟨AppState.IDLE, none, none⟩).2.speechInput = some (("E" : String).take 800) ∧
      (speechRequest "E").text = "E" ∧
      (speechRequest "E").responseModalities = [Modality.AUDIO] ∧
      (speechRequest "E").voiceName = "Fenrir" ∧
      (speechRequest "E").model = "gemini-2.5-flash-preview-tts") :=
  ⟨by decide,
    c8_speech_input "q" "E" "S" "P" "E" ⟨AppState.IDLE, none, none⟩ (by decide)⟩

/-- Claim C9: the stage-3 updaters preserve absence of the aggregate — a late
result arriving after the aggregate was cleared to `null` leaves it `null` —
and, because falsy payloads are filtered before the write, they preserve the
invariant that `imageUrl` and `audioUrl` are only ever set to non-empty
strings. -/
theorem c9_absence_and_nonempty_urls (u : String) (a : Option String)
    (st st2 : PipelineState) (hn : st.content = none)
    (h2 : urlFieldsNonEmpty st2) :
    (applyDiagramResult u st).content = none ∧
    (applySpeechResult a st).content = none ∧
    urlFieldsNonEmpty (applyDiagramResult u st2) ∧
    urlFieldsNonEmpty (applySpeechResult a st2) := by
  refine ⟨?_, ?_, ?_, ?_⟩
  · by_cases h : u = "" <;> simp [applyDiagramResult, h, hn]
  · cases a with
    | none => exact hn
    | some v => by_cases h : v = "" <;> simp [applySpeechResult, h, hn]
  · by_cases h : u = ""
    · simpa [applyDiagramResult, h] using h2
    · intro c hc
      simp only [applyDiagramResult, h, if_neg, ite_false] at hc
      cases h2c : st2.content with
      | none => rw [h2c] at hc; simp at hc
      | some c0 =>
        rw [h2c] at hc
        rw [Option.map_some'] at hc
        obtain ⟨hi, ha⟩ := h2 c0 h2c
        injection hc with hc
        subst hc
        refine ⟨?_, ?_⟩
        · intro v hv
          simp only at hv
          injection hv with hv
          subst hv
          exact h
        · intro v hv
          exact ha v hv
  · cases a with
    | none => exact h2
    | some w =>
      by_cases h : w = ""
      · simpa [applySpeechResult, h] using h2
      · intro c hc
        simp only [applySpeechResult, h, ite_false] at hc
        cases h2c : st2.content with
        | none => rw [h2c] at hc; simp at hc
        | some c0 =>
          rw [h2c] at hc
          rw [Option.map_some'] at hc
          obtain ⟨hi, ha⟩ := h2 c0 h2c
          injection hc with hc
          subst hc
          refine ⟨?_, ?_⟩
          · intro v hv
            exact hi v hv
          · intro v hv
            simp only at hv
            injection hv with hv
            subst hv
            exact h

/-- Witness for C9 at a cleared aggregate and a populated one. -/
theorem c9_absence_and_nonempty_urls_witness :
    (⟨AppState.IDLE, none, none⟩ : PipelineState).content = none ∧
    urlFieldsNonEmpty ⟨AppState.COMPLETED, some ⟨some "E", some "S", none, none⟩, none⟩ ∧
    ((applyDiagramResult "IMG" ⟨AppState.IDLE, none, none⟩).content = none ∧
      (applySpeechResult (some "AUD") ⟨AppState.IDLE, none, none⟩).content = none ∧
      urlFieldsNonEmpty (applyDiagramResult "IMG"
        ⟨AppState.COMPLETED, some ⟨some "E", some "S", none, none⟩, none⟩) ∧
      urlFieldsNonEmpty (applySpeechResult (some "AUD")
        ⟨AppState.COMPLETED, some ⟨some "E", some "S", none, none⟩, none⟩)) := by
  have h2 : urlFieldsNonEmpty
      ⟨AppState.COMPLETED, some ⟨some "E", some "S", none, none⟩, none⟩ := by
    intro c hc
    injection hc with hc
    subst hc
    constructor <;> intro v hv <;> simp at hv
  exact ⟨rfl, h2,
    c9_absence_and_nonempty_urls "IMG" (some "AUD") ⟨AppState.IDLE, none, none⟩
      ⟨AppState.COMPLETED, some ⟨some "E", some "S", none, none⟩, none⟩ rfl h2⟩

/-- Claim C10: `generateDiagram` and `generateSpeech` never propagate a
rejection — the promise their caller sees always settles fulfilled, and when
the `try` body fails the fulfilled value is `""` resp. `null`, so the
`.catch` handlers attached in `handleProcess` are unreachable. -/
theorem c10_never_rejects (od od2 : DiagramOutcome) (os os2 : SpeechOutcome)
    (hd : isFulfilled (generateDiagramBody od2) = false)
    (hs : isFulfilled (generateSpeechBody os2) = false) :
    isFulfilled (generateDiagramSettled od) = true ∧
    isFulfilled (generateSpeechSettled os) = true ∧
    generateDiagramSettled od2 = Except.ok "" ∧
    generateSpeechSettled os2 = Except.ok none := by
  refine ⟨?_, ?_, ?_, ?_⟩
  · cases h : generateDiagramBody od <;> simp [generateDiagramSettled, h, isFulfilled]
  · cases h : generateSpeechBody os <;> simp [generateSpeechSettled, h, isFulfilled]
  · cases h : generateDiagramBody od2 with
    | ok v => rw [h] at hd; simp [isFulfilled] at hd
    | error e => simp [generateDiagramSettled, h]
  · cases h : generateSpeechBody os2 with
    | ok v => rw [h] at hs; simp [isFulfilled] at hs
    | error e => simp [generateSpeechSettled, h]

/-- Witness for C10 with one fulfilled and one rejected outcome per call. -/
theorem c10_never_rejects_witness :
    isFulfilled (generateDiagramBody DiagramOutcome.reject) = false ∧
    isFulfilled (generateSpeechBody SpeechOutcome.reject) = false ∧
    (isFulfilled (generateDiagramSettled (DiagramOutcome.parts [some "abc"])) = true ∧
      isFulfilled (generateSpeechSettled (SpeechOutcome.data (some "xyz"))) = true ∧
      generateDiagramSettled DiagramOutcome.reject = Except.ok "" ∧
      generateSpeechSettled SpeechOutcome.reject = Except.ok none) :=
  ⟨rfl, rfl,
    c10_never_rejects (DiagramOutcome.parts [some "abc"]) DiagramOutcome.reject
      (SpeechOutcome.data (some "xyz")) SpeechOutcome.reject rfl rfl⟩

end SenseAI
